import Mathlib

/-!
# Verification of the shift-scheduling solver core

Shallow embedding of `src/solver/solver.py` (a monthly staff-shift scheduling
engine) together with theorems settling the specification claims about it.

Conventions of the embedding:
* Python `int` values become `Int` (or `Nat` where the source guarantees
  non-negativity, e.g. validated `days`).
* Python dictionaries become association lists looked up with `dictGet`
  (first match, mirroring dict semantics; the source never builds duplicate
  keys).
* A Python value that may fail `int(...)` conversion is `Option Int`
  (`none` = `TypeError` or `ValueError` on conversion).
* Functions that can raise `InputValidationError` return `Except VError _`.
* Dynamically-typed fields carry small inductive types whose constructors
  name the shapes the source code distinguishes (`notDict`, `notList`, ...).
-/

namespace ShiftSolver

/-- Association-list lookup, mirroring Python `dict.get`: first binding wins. -/
def dictGet {α : Type} (kvs : List (String × α)) (k : String) : Option α :=
  (kvs.find? (fun p => p.1 == k)).map (fun p => p.2)

/-! ## Slot geometry (solver.py lines 7-10, 136-137, 556-570) -/

/-- `SLOTS` from solver.py line 7. -/
def SLOTS : List String := ["0-7", "7-9", "9-15", "16-18", "18-21", "21-23"]

/-- `SUMMARY_SLOTS` from solver.py line 8. -/
def SUMMARY_SLOTS : List String := ["7-9", "9-15", "16-18", "18-21", "21-23", "0-7"]

/-- `NEED_TEMPLATE_SLOTS` from solver.py line 10. -/
def NEED_TEMPLATE_SLOTS : List String := ["7-9", "9-15", "16-18", "18-24", "0-7"]

/-- `overlap(start, end, a, b)` from solver.py line 136:
`not (end <= a or b <= start)`. -/
def overlap (start end_ a b : Int) : Bool :=
  !(decide (end_ ≤ a) || decide (b ≤ start))

/-- The integer pair produced by `map(int, slot_label.split("-"))` in
`parse_slot` (solver.py line 557), tabulated for the slot labels the program
uses; other labels never reach `parse_slot`. -/
def slotSplit (slot_label : String) : Int × Int :=
  match slot_label with
  | "0-7" => (0, 7)
  | "7-9" => (7, 9)
  | "9-15" => (9, 15)
  | "16-18" => (16, 18)
  | "18-21" => (18, 21)
  | "21-23" => (21, 23)
  | "18-24" => (18, 24)
  | _ => (0, 0)

/-- `parse_slot` from solver.py lines 556-562: special-case label `"0-7"` by
`a += 24`, then wrap `b += 24` when `b <= a`. -/
def parse_slot (slot_label : String) : Int × Int :=
  let ab := slotSplit slot_label
  let a := if slot_label = "0-7" then ab.1 + 24 else ab.1
  let b := if ab.2 ≤ a then ab.2 + 24 else ab.2
  (a, b)

/-- A shift definition: `{code, name, start, end}` (solver.py line 68).
`end_` stands for the Python key `"end"`. -/
structure ShiftDef where
  code : String
  name : String
  start : Int
  end_ : Int
deriving Repr, DecidableEq

/-- The canonicalized shift end used by `slot_contributes` (solver.py
lines 568-569): `end += 24` when `end <= start` and `end <= 24`. -/
def canonShiftEnd (sh : ShiftDef) : Int :=
  if sh.end_ ≤ sh.start ∧ sh.end_ ≤ 24 then sh.end_ + 24 else sh.end_

/-- `slot_contributes(shift, slot_label)` from solver.py lines 565-570. -/
def slot_contributes (sh : ShiftDef) (slot_label : String) : Bool :=
  let ab := parse_slot slot_label
  overlap sh.start (canonShiftEnd sh) ab.1 ab.2

/-- Written from the spec's words (§4.2 `shiftCoversSlot`): canonicalize the
slot via `parseSlot` and the shift end via the `se` rule, then intersect the
half-open intervals by the formula `NOT(se ≤ a OR b ≤ start)`. -/
def spec_shiftCoversSlot (sh : ShiftDef) (slot_label : String) : Bool :=
  let ab := parse_slot slot_label
  let se := if sh.end_ ≤ sh.start ∧ sh.end_ ≤ 24 then sh.end_ + 24 else sh.end_
  decide (¬(se ≤ ab.1 ∨ ab.2 ≤ sh.start))

/-! ## Summary-consistency flag (solver.py lines 213-228) -/

/-- `should_flag_summary_inconsistency` from solver.py lines 213-228.
Arguments are `Option Int`: `some n` models a value `int(...)` converts to
`n`, `none` a value whose conversion raises. Failed conversion of the first
two arguments returns `False`; a failed `shortage_total` conversion is
treated as `0`. -/
def should_flag_summary_inconsistency
    (total_need total_assigned shortage_total : Option Int) : Bool :=
  match total_need with
  | none => false
  | some total_need_int =>
    match total_assigned with
    | none => false
    | some total_assigned_int =>
      let shortage_int := shortage_total.getD 0
      if total_need_int ≤ 0 then false
      else decide (total_assigned_int < total_need_int) && decide (shortage_int = 0)

/-! ## Claim theorems for C2 and C3 -/

/-- C2: `should_flag_summary_inconsistency(total_need, total_assigned,
shortage_total)` returns true iff `total_need > 0`, `total_assigned <
total_need` and `shortage_total == 0` for integer-convertible arguments;
in particular it is true on `(10, 0, 0)` and false on `(10, 10, 0)` and
`(0, 0, 0)`. -/
theorem C2_summary_inconsistency_iff :
    (∀ tn ta st : Int,
      should_flag_summary_inconsistency (some tn) (some ta) (some st) = true ↔
        (0 < tn ∧ ta < tn ∧ st = 0)) ∧
    should_flag_summary_inconsistency (some 10) (some 0) (some 0) = true ∧
    should_flag_summary_inconsistency (some 10) (some 10) (some 0) = false ∧
    should_flag_summary_inconsistency (some 0) (some 0) (some 0) = false := by
  refine ⟨fun tn ta st => ?_, by decide, by decide, by decide⟩
  simp only [should_flag_summary_inconsistency, Option.getD_some]
  rcases le_or_lt tn 0 with h | h
  · rw [if_pos h]
    simp only [Bool.false_eq_true, false_iff]
    omega
  · rw [if_neg (by omega)]
    simp only [Bool.and_eq_true, decide_eq_true_eq]
    omega

/-- Helper for C3: `parse_slot` values on the six coverage slot labels. -/
theorem parse_slot_vals :
    parse_slot "0-7" = (24, 31) ∧ parse_slot "7-9" = (7, 9) ∧
    parse_slot "9-15" = (9, 15) ∧ parse_slot "16-18" = (16, 18) ∧
    parse_slot "18-21" = (18, 21) ∧ parse_slot "21-23" = (21, 23) := by
  refine ⟨by decide, by decide, by decide, by decide, by decide, by decide⟩

/-- Two non-empty half-open integer intervals intersect iff neither lies
entirely at or past the other's end. -/
theorem interval_overlap_iff (s e a b : Int) (hse : s < e) (hab : a < b) :
    ¬(e ≤ a ∨ b ≤ s) ↔ ∃ x : Int, (s ≤ x ∧ x < e) ∧ (a ≤ x ∧ x < b) := by
  constructor
  · intro h
    refine ⟨max s a, ?_⟩
    omega
  · rintro ⟨x, hx⟩
    omega

/-- C3: for every shift with integer start/end and every coverage slot label,
`slot_contributes` equals the canonicalized-interval overlap formula written
from the spec, and (whenever the canonical shift interval is non-empty) that
formula holds iff the two half-open intervals genuinely intersect. -/
theorem C3_slot_contributes_naive_overlap :
    (∀ (sh : ShiftDef), ∀ slot ∈ SLOTS,
      slot_contributes sh slot = spec_shiftCoversSlot sh slot) ∧
    (∀ (sh : ShiftDef), ∀ slot ∈ SLOTS, sh.start < canonShiftEnd sh →
      (spec_shiftCoversSlot sh slot = true ↔
        ∃ x : Int, (sh.start ≤ x ∧ x < canonShiftEnd sh) ∧
          ((parse_slot slot).1 ≤ x ∧ x < (parse_slot slot).2))) := by
  have hcanon : ∀ sh : ShiftDef,
      (if sh.end_ ≤ sh.start ∧ sh.end_ ≤ 24 then sh.end_ + 24 else sh.end_)
        = canonShiftEnd sh := fun _ => rfl
  constructor
  · intro sh slot _
    simp only [slot_contributes, spec_shiftCoversSlot, overlap, hcanon sh]
    by_cases h1 : canonShiftEnd sh ≤ (parse_slot slot).1 <;>
      by_cases h2 : (parse_slot slot).2 ≤ sh.start <;>
      simp [h1, h2]
  · intro sh slot hslot hne
    fin_cases hslot <;>
      · simp only [spec_shiftCoversSlot, hcanon, parse_slot_vals.1,
          parse_slot_vals.2.1, parse_slot_vals.2.2.1, parse_slot_vals.2.2.2.1,
          parse_slot_vals.2.2.2.2.1, parse_slot_vals.2.2.2.2.2,
          decide_eq_true_eq]
        exact interval_overlap_iff _ _ _ _ hne (by omega)

/-- Witness for C3 at the day shift `DA` (7-15) and slot `"7-9"`. -/
theorem C3_witness :
    (("7-9" : String) ∈ SLOTS ∧
      slot_contributes { code := "DA", name := "DA", start := 7, end_ := 15 } "7-9" =
        spec_shiftCoversSlot { code := "DA", name := "DA", start := 7, end_ := 15 } "7-9") ∧
    ((7 : Int) < canonShiftEnd { code := "DA", name := "DA", start := 7, end_ := 15 } ∧
      (spec_shiftCoversSlot { code := "DA", name := "DA", start := 7, end_ := 15 } "7-9" = true ↔
        ∃ x : Int,
          (({ code := "DA", name := "DA", start := 7, end_ := 15 } : ShiftDef).start ≤ x ∧
            x < canonShiftEnd { code := "DA", name := "DA", start := 7, end_ := 15 }) ∧
          ((parse_slot "7-9").1 ≤ x ∧ x < (parse_slot "7-9").2))) :=
  ⟨⟨by decide, C3_slot_contributes_naive_overlap.1 _ "7-9" (by decide)⟩,
   ⟨by decide, C3_slot_contributes_naive_overlap.2 _ "7-9" (by decide) (by decide)⟩⟩

/-! ## Need-template sanitization (solver.py lines 301-308, 378-405) -/

/-- A raw Python value as seen by `_as_non_negative_int`: either `int(...)`
converts it to the carried integer, or the conversion raises. -/
inductive RawVal where
  | vint : Int → RawVal
  | other : RawVal
deriving Repr, DecidableEq

/-- `_as_non_negative_int(value)` from solver.py lines 301-308, at its only
call site's `default=0`: conversion failure or a negative value yields 0. -/
def _as_non_negative_int (value : RawVal) : Int :=
  match value with
  | .other => 0
  | .vint ivalue => if ivalue < 0 then 0 else ivalue

/-- A raw value found under a day-type key of `needTemplate`: a dict of slot
entries, or something that is not a dict. -/
inductive RawSlots where
  | dictE : List (String × RawVal) → RawSlots
  | notDict : RawSlots
deriving Repr, DecidableEq

/-- The sanitized slot record built for one day type (solver.py lines
399-403): every slot of `NEED_TEMPLATE_SLOTS`, missing keys defaulting to
the Python int `0`. -/
def sanitizeSlots (kvs : List (String × RawVal)) : List (String × Int) :=
  NEED_TEMPLATE_SLOTS.map
    (fun slot => (slot, _as_non_negative_int ((dictGet kvs slot).getD (.vint 0))))

/-- The entry loop of `_sanitize_need_template` (solver.py lines 386-404),
failing at the first bad key or non-dict entry as the source raises. -/
def sanitizeEntries :
    List (String × RawSlots) → Except String (List (String × List (String × Int)))
  | [] => .ok []
  | (day_type, raw_slots) :: rest =>
    if day_type = "" then .error "invalid_need_template_key"
    else
      match raw_slots with
      | .notDict => .error "invalid_need_template_slots"
      | .dictE kvs => do
        let tail ← sanitizeEntries rest
        .ok ((day_type, sanitizeSlots kvs) :: tail)

/-- `_sanitize_need_template` from solver.py lines 378-405. The argument is
`none` when the raw `needTemplate` value is not a dict; dict keys are
modelled as strings (the source rejects non-string keys just as it rejects
empty ones, with `invalid_need_template_key`). -/
def _sanitize_need_template (raw_template : Option (List (String × RawSlots))) :
    Except String (List (String × List (String × Int))) :=
  match raw_template with
  | none => .error "invalid_need_template"
  | some entries =>
    if entries.isEmpty then .error "invalid_need_template"
    else sanitizeEntries entries

/-- Sanitized values are never negative. -/
theorem as_non_negative_int_nonneg (v : RawVal) : 0 ≤ _as_non_negative_int v := by
  cases v with
  | other => simp [_as_non_negative_int]
  | vint n =>
    simp only [_as_non_negative_int]
    split <;> omega

/-- Looking a key up in an association list tabulating a function over a key
list returns the function's value whenever the key is listed. -/
theorem dictGet_map_self {α : Type} (f : String → α) (l : List String)
    (slot : String) (hmem : slot ∈ l) :
    dictGet (l.map (fun s => (s, f s))) slot = some (f slot) := by
  induction l with
  | nil => cases hmem
  | cons head rest ih =>
    by_cases heq : head = slot
    · subst heq
      simp [dictGet]
    · have hr : slot ∈ rest := by
        rcases List.mem_cons.mp hmem with rfl | h
        · exact absurd rfl heq
        · exact h
      simp only [List.map_cons, dictGet]
      rw [List.find?_cons_of_neg _ (by simp [heq])]
      exact ih hr

/-- Day types listed in a sanitized template come from `dictE` raw entries
and carry exactly the `sanitizeSlots` record. -/
theorem sanitizeEntries_mem {entries : List (String × RawSlots)}
    {out : List (String × List (String × Int))}
    (hok : sanitizeEntries entries = .ok out) :
    ∀ p ∈ out, ∃ kvs, (p.1, RawSlots.dictE kvs) ∈ entries ∧
      p.2 = sanitizeSlots kvs := by
  induction entries generalizing out with
  | nil =>
    simp only [sanitizeEntries, Except.ok.injEq] at hok
    subst hok
    intro p hp
    cases hp
  | cons head rest ih =>
    match head with
    | (day_type, raw_slots) =>
      simp only [sanitizeEntries] at hok
      split at hok
      · cases hok
      · match raw_slots with
        | .notDict => cases hok
        | .dictE kvs =>
          simp only [bind, Except.bind] at hok
          cases hrest : sanitizeEntries rest with
          | error e => rw [hrest] at hok; cases hok
          | ok tail =>
            rw [hrest] at hok
            simp only [Except.ok.injEq] at hok
            subst hok
            intro p hp
            rcases List.mem_cons.mp hp with rfl | hmem
            · exact ⟨kvs, List.mem_cons_self _ _, rfl⟩
            · rcases ih hrest p hmem with ⟨kvs', hin, hval⟩
              exact ⟨kvs', List.mem_cons_of_mem _ hin, hval⟩

/-- Every value of an accepted sanitized template is the non-negative
sanitization of the matching raw entry under every template slot. -/
theorem sanitize_ok_slot_values
    {raw : Option (List (String × RawSlots))}
    {out : List (String × List (String × Int))}
    (hok : _sanitize_need_template raw = .ok out) :
    ∀ p ∈ out, ∀ slot ∈ NEED_TEMPLATE_SLOTS,
      ∃ v : Int, dictGet p.2 slot = some v ∧ 0 ≤ v ∧
        ∃ kvs entries, raw = some entries ∧
          (p.1, RawSlots.dictE kvs) ∈ entries ∧
          v = _as_non_negative_int ((dictGet kvs slot).getD (.vint 0)) := by
  intro p hp slot hslot
  match raw with
  | none => cases hok
  | some entries =>
    simp only [_sanitize_need_template] at hok
    split at hok
    · cases hok
    · rcases sanitizeEntries_mem hok p hp with ⟨kvs, hin, hval⟩
      refine ⟨_as_non_negative_int ((dictGet kvs slot).getD (.vint 0)), ?_,
        as_non_negative_int_nonneg _, kvs, entries, rfl, hin, rfl⟩
      rw [hval]
      exact dictGet_map_self _ NEED_TEMPLATE_SLOTS slot hslot

/-- C4: every need template accepted by `_sanitize_need_template` maps, for
every listed day type, every slot of `NEED_TEMPLATE_SLOTS` to a value that
is the non-negative sanitization of the raw entry (so missing keys default
to 0 and negative or non-integer raw values become 0). -/
theorem C4_sanitize_need_template_nonneg
    (raw : Option (List (String × RawSlots)))
    (out : List (String × List (String × Int)))
    (hok : _sanitize_need_template raw = .ok out) :
    (∀ p ∈ out, ∀ slot ∈ NEED_TEMPLATE_SLOTS,
      ∃ v : Int, dictGet p.2 slot = some v ∧ 0 ≤ v ∧
        ∃ kvs entries, raw = some entries ∧
          (p.1, RawSlots.dictE kvs) ∈ entries ∧
          v = _as_non_negative_int ((dictGet kvs slot).getD (.vint 0))) ∧
    (∀ kvs slot, dictGet kvs slot = none →
      _as_non_negative_int ((dictGet kvs slot).getD (.vint 0)) = 0) ∧
    (∀ n : Int, n < 0 → _as_non_negative_int (.vint n) = 0) ∧
    _as_non_negative_int .other = 0 := by
  refine ⟨sanitize_ok_slot_values hok, ?_, ?_, rfl⟩
  · intro kvs slot hnone
    rw [hnone]
    rfl
  · intro n hn
    simp [_as_non_negative_int, hn]

/-! ## Input data model -/

/-- A person record; `none` components model absent keys or values of the
wrong type at those keys. `fixedOffWeekdays` carries the weekday indices
after the `fixed_map` name normalization; `unavailableDates` and
`requestedOffDates` carry the integer-convertible raw day values fed to
`sanitize_day_set`. -/
structure Person where
  id : Option String
  canWork : Option (List String)
  fixedOffWeekdays : List Int
  unavailableDates : List Int
  requestedOffDates : List Int
deriving Repr, DecidableEq

/-- The `"people"` entry: absent key, or a list of person records. -/
inductive PeopleField where
  | absent : PeopleField
  | listF : List Person → PeopleField
deriving Repr, DecidableEq

/-- The `"dayTypeByDate"` entry: a list (entries `none` when not a string),
a mapping keyed by day number, or a value of another shape. -/
inductive DayTypesField where
  | listF : List (Option String) → DayTypesField
  | dictF : List (Int × Option String) → DayTypesField
  | other : DayTypesField
deriving Repr, DecidableEq

/-- A value found under `"NA"`, `"NB"` or `"NC"` of the raw
`previousMonthNightCarry` dict: a list (only its length is ever consumed,
so elements are `Unit`), or a non-list. -/
inductive CarryVal where
  | listV : List Unit → CarryVal
  | notList : CarryVal
deriving Repr, DecidableEq

/-- The raw `previousMonthNightCarry` dict: the three keys, each possibly
absent. -/
structure RawCarry where
  na : Option CarryVal
  nb : Option CarryVal
  nc : Option CarryVal
deriving Repr, DecidableEq

/-- The `"previousMonthNightCarry"` entry: a dict or some other value. -/
inductive CarryField where
  | dictF : RawCarry → CarryField
  | other : CarryField
deriving Repr, DecidableEq

/-- An entry of an input `"shifts"` list: a dict with its `"code"` (when a
string), `"start"` and `"end"` (when integer-valued), or a non-dict. -/
inductive InShift where
  | notDict : InShift
  | dictS : Option String → Option Int → Option Int → InShift
deriving Repr, DecidableEq

/-- The `"shifts"` entry: absent key, a non-list value, or a list. -/
inductive InputShifts where
  | absent : InputShifts
  | notList : InputShifts
  | listF : List InShift → InputShifts
deriving Repr, DecidableEq

/-- The raw input map, restricted to the keys the embedded pipeline reads. -/
structure InputData where
  days : Option Int
  weekdayOfDay1 : Option Int
  dayTypeByDate : DayTypesField
  needTemplate : Option (List (String × RawSlots))
  previousMonthNightCarry : CarryField
  shifts : InputShifts
  people : PeopleField
deriving Repr, DecidableEq

/-! ## Carry sanitization and demand preparation (solver.py lines 311-323, 326-375, 408-479) -/

/-- Sanitization of one carry entry: a list is kept, anything else becomes
the empty list. -/
def sanCarryVal : Option CarryVal → List Unit
  | some (.listV l) => l
  | _ => []

/-- `_ensure_previous_month_carry` from solver.py lines 311-323: a non-dict
becomes an empty dict; each of `NA`, `NB`, `NC` is kept when a list, else
replaced by `[]`. Returns the sanitized `(NA, NB, NC)` triple. -/
def _ensure_previous_month_carry (raw : CarryField) : List Unit × List Unit × List Unit :=
  match raw with
  | .other => ([], [], [])
  | .dictF r => (sanCarryVal r.na, sanCarryVal r.nb, sanCarryVal r.nc)

/-- The total carry count `C = |NA| + |NB| + |NC|` over the sanitized lists
(solver.py line 439). -/
def carry_total (raw : CarryField) : Nat :=
  let s := _ensure_previous_month_carry raw
  s.1.length + s.2.1.length + s.2.2.length

/-- Lookup of a day-number key in the dict form of `dayTypeByDate`. -/
def lookupIntKey (kvs : List (Int × Option String)) (d : Nat) : Option (Option String) :=
  (kvs.find? (fun p => p.1 == (d : Int))).map (fun p => p.2)

/-- The day loop of `_prepare_day_type_list`'s dict branch (solver.py lines
346-363): collects day types in order and missing days, raising at the
first non-string or empty value. -/
def dayTypeDictGo (kvs : List (Int × Option String)) :
    List Nat → Except String (List String × List Nat)
  | [] => .ok ([], [])
  | d :: rest =>
    match lookupIntKey kvs d with
    | none => do
      let (res, miss) ← dayTypeDictGo kvs rest
      .ok (res, d :: miss)
    | some none => .error "invalid_day_type_value"
    | some (some s) =>
      if s = "" then .error "invalid_day_type_value"
      else do
        let (res, miss) ← dayTypeDictGo kvs rest
        .ok (s :: res, miss)

/-- `_prepare_day_type_list` from solver.py lines 326-375. -/
def _prepare_day_type_list (raw : DayTypesField) (days : Nat) :
    Except String (List String) :=
  match raw with
  | .listF vals =>
    if vals.length ≠ days then .error "invalid_day_type_length"
    else vals.mapM (fun v =>
      match v with
      | none => .error "invalid_day_type_value"
      | some s => if s = "" then .error "invalid_day_type_value" else .ok s)
  | .dictF kvs => do
    let (result, missing) ← dayTypeDictGo kvs (List.range' 1 days)
    if missing.isEmpty then .ok result else .error "missing_day_type"
  | .other => .error "invalid_day_type"

/-- One per-day needs summary entry of `perDayTotals` (solver.py lines
445-460). -/
structure PerDay where
  date : Nat
  slots : List (String × Int)
  total : Int
  carryApplied : Bool
deriving Repr, DecidableEq

/-- The per-day summary built in the demand loop for day `day_index`
(solver.py lines 443-460): `"18-24"` populates both `"18-21"` and
`"21-23"`, and the day-1 carry is subtracted from the `"0-7"` need. -/
def mkPerDay (nt : List (String × List (String × Int))) (carry : Nat)
    (day_index : Nat) (day_type : String) : PerDay :=
  let slots0 := (dictGet nt day_type).getD []
  let v79 := (dictGet slots0 "7-9").getD 0
  let v915 := (dictGet slots0 "9-15").getD 0
  let v1618 := (dictGet slots0 "16-18").getD 0
  let evening_need := (dictGet slots0 "18-24").getD 0
  let midnight_need := (dictGet slots0 "0-7").getD 0
  let carry_today : Int := if day_index = 1 then (carry : Int) else 0
  let effective_midnight := max 0 (midnight_need - carry_today)
  { date := day_index,
    slots := [("7-9", v79), ("9-15", v915), ("16-18", v1618),
      ("18-21", evening_need), ("21-23", evening_need),
      ("0-7", effective_midnight)],
    total := v79 + v915 + v1618 + evening_need + evening_need + effective_midnight,
    carryApplied := decide (carry_today ≠ 0 ∧ midnight_need ≠ 0) }

/-- The demand loop over all days, starting at `day_index` (solver.py lines
443-461). -/
def buildPerDay (nt : List (String × List (String × Int))) (carry : Nat) :
    Nat → List String → List PerDay
  | _, [] => []
  | day_index, dt :: rest =>
    mkPerDay nt carry day_index dt :: buildPerDay nt carry (day_index + 1) rest

/-- The prepared demand record (solver.py lines 87-93), with the diagnostics
fields `solve` consumes (`dayTypeSample`, `perDayTotals`, `totalNeed`). -/
structure PreparedDemand where
  days : Nat
  weekday0 : Int
  day_types : List String
  need_template : List (String × List (String × Int))
  dayTypeSample : List String
  perDayTotals : List PerDay
  totalNeed : Int
deriving Repr, DecidableEq

/-- `prepare_demand` from solver.py lines 408-479. -/
def prepare_demand (input : InputData) : Except String PreparedDemand :=
  match input.days with
  | none => .error "invalid_days"
  | some d =>
    if d ≤ 0 then .error "invalid_days"
    else
      match input.weekdayOfDay1 with
      | none => .error "invalid_weekday_of_day1"
      | some w =>
        if ¬(0 ≤ w ∧ w ≤ 6) then .error "invalid_weekday_of_day1"
        else do
          let day_types ← _prepare_day_type_list input.dayTypeByDate d.toNat
          let nt ← _sanitize_need_template input.needTemplate
          if day_types.any (fun dt => (dictGet nt dt).isNone) then
            .error "unknown_day_type"
          else
            let carry := carry_total input.previousMonthNightCarry
            let perDay := buildPerDay nt carry 1 day_types
            let totalNeed := (perDay.map (fun p => p.total)).sum
            if totalNeed = 0 then .error "total_need_zero"
            else .ok { days := d.toNat
                       weekday0 := w
                       day_types := day_types
                       need_template := nt
                       dayTypeSample := day_types.take 7
                       perDayTotals := perDay
                       totalNeed := totalNeed }

/-- The `"0-7"` need used by the model's shortage constraint
`s[d,"0-7"] + lack >= effective_need` (solver.py lines 952-960): the day-1
carry is the total length of the sanitized carry lists, zero on later
days. -/
def model_effective_midnight (needs : List (String × Int))
    (c3 : List Unit × List Unit × List Unit) (d : Nat) : Int :=
  let need_midnight := (dictGet needs "0-7").getD 2
  let carry : Int :=
    if d = 1 then (c3.1.length + c3.2.1.length + c3.2.2.length : Int) else 0
  max 0 (need_midnight - carry)

/-- Lookup in a cons association list steps by key equality. -/
theorem dictGet_cons {α : Type} (k k' : String) (v : α)
    (rest : List (String × α)) :
    dictGet ((k, v) :: rest) k' = if k == k' then some v else dictGet rest k' := by
  by_cases h : k == k' <;> simp [dictGet, List.find?_cons, h]

/-- Everything `prepare_demand`'s success tells us about its input and
output. -/
theorem prepare_demand_ok_elim {input : InputData} {pd : PreparedDemand}
    (hok : prepare_demand input = .ok pd) :
    ∃ d w, input.days = some d ∧ ¬(d ≤ 0) ∧ input.weekdayOfDay1 = some w ∧
      (0 ≤ w ∧ w ≤ 6) ∧
      _prepare_day_type_list input.dayTypeByDate d.toNat = .ok pd.day_types ∧
      _sanitize_need_template input.needTemplate = .ok pd.need_template ∧
      pd.days = d.toNat ∧ pd.weekday0 = w ∧
      pd.perDayTotals = buildPerDay pd.need_template
        (carry_total input.previousMonthNightCarry) 1 pd.day_types ∧
      pd.totalNeed = ((pd.perDayTotals.map (fun p => p.total)).sum) ∧
      pd.totalNeed ≠ 0 := by
  unfold prepare_demand at hok
  split at hok
  · simp at hok
  · rename_i d hd
    split at hok
    · simp at hok
    · rename_i hdle
      split at hok
      · simp at hok
      · rename_i w hw
        split at hok
        · simp at hok
        · rename_i hwrange
          cases hdt : _prepare_day_type_list input.dayTypeByDate d.toNat with
          | error e => rw [hdt] at hok; simp [bind, Except.bind] at hok
          | ok day_types =>
            rw [hdt] at hok
            simp only [bind, Except.bind] at hok
            cases hnt : _sanitize_need_template input.needTemplate with
            | error e => rw [hnt] at hok; simp at hok
            | ok nt =>
              rw [hnt] at hok
              simp only [] at hok
              split at hok
              · simp at hok
              · split at hok
                · simp at hok
                · simp only [Except.ok.injEq] at hok
                  subst hok
                  exact ⟨d, w, hd, hdle, hw, not_not.mp hwrange, hdt, rfl,
                    rfl, rfl, rfl, rfl, by assumption⟩

/-- Indexing the demand loop output: entry `j` is the record for day
`i + j` built from day type `j` of the list. -/
theorem buildPerDay_get? (nt : List (String × List (String × Int)))
    (carry : Nat) :
    ∀ (l : List String) (i j : Nat),
      (buildPerDay nt carry i l).get? j =
        (l.get? j).map (fun dt => mkPerDay nt carry (i + j) dt) := by
  intro l
  induction l with
  | nil => intro i j; simp [buildPerDay]
  | cons dt rest ih =>
    intro i j
    cases j with
    | zero => simp [buildPerDay]
    | succ j' =>
      have h : i + (j' + 1) = (i + 1) + j' := by omega
      simp only [buildPerDay, List.get?_cons_succ, h]
      exact ih (i + 1) j'

/-- The `"0-7"` entry of a per-day record is the carry-adjusted midnight
need. -/
theorem mkPerDay_slot07 (nt : List (String × List (String × Int)))
    (carry : Nat) (day_index : Nat) (dt : String) :
    dictGet (mkPerDay nt carry day_index dt).slots "0-7" =
      some (max 0 ((dictGet ((dictGet nt dt).getD []) "0-7").getD 0 -
        (if day_index = 1 then (carry : Int) else 0))) := rfl

/-- A successful association-list lookup comes from a member with a
matching key. -/
theorem dictGet_eq_some_mem {α : Type} {kvs : List (String × α)} {k : String}
    {v : α} (h : dictGet kvs k = some v) : (k, v) ∈ kvs := by
  simp only [dictGet, Option.map_eq_some'] at h
  rcases h with ⟨p, hfind, hv⟩
  have hmem := List.mem_of_find?_eq_some hfind
  have hkey := List.find?_some hfind
  simp only [beq_iff_eq] at hkey
  cases p
  simp_all

/-- Every `"0-7"` value reachable through a sanitized need template is
non-negative (including the defaults for missing day types or keys). -/
theorem sanitized_slot07_nonneg {raw : Option (List (String × RawSlots))}
    {nt : List (String × List (String × Int))}
    (hnt : _sanitize_need_template raw = .ok nt) (dt : String) :
    0 ≤ (dictGet ((dictGet nt dt).getD []) "0-7").getD 0 := by
  cases hfind : dictGet nt dt with
  | none => simp [dictGet]
  | some slots =>
    have hmem := dictGet_eq_some_mem hfind
    rcases sanitize_ok_slot_values hnt (dt, slots) hmem
      "0-7" (by simp [NEED_TEMPLATE_SLOTS]) with ⟨v, hv, hvnn, _⟩
    simp only [Option.getD_some]
    simp only at hv
    rw [hv]
    simpa using hvnn

/-- C5: only the total carry count is consumed, and the effective `"0-7"`
need is `max(0, need_midnight − C)` on day 1 and `need_midnight` on every
later day, both in demand preparation (`perDayTotals`, index `j` being day
`j+1`) and in the model's shortage-constraint need. -/
theorem C5_night_carry :
    (∀ (input : InputData) (pd : PreparedDemand),
      prepare_demand input = .ok pd →
      ∀ j dt, pd.day_types.get? j = some dt →
        ∃ pday, pd.perDayTotals.get? j = some pday ∧
          dictGet pday.slots "0-7" = some (
            if j = 0
            then max 0 ((dictGet ((dictGet pd.need_template dt).getD []) "0-7").getD 0
              - (carry_total input.previousMonthNightCarry : Int))
            else (dictGet ((dictGet pd.need_template dt).getD []) "0-7").getD 0)) ∧
    (∀ (needs : List (String × Int)) (c3 : List Unit × List Unit × List Unit)
      (d : Nat), 0 ≤ (dictGet needs "0-7").getD 2 →
      model_effective_midnight needs c3 d =
        if d = 1
        then max 0 ((dictGet needs "0-7").getD 2 -
          (c3.1.length + c3.2.1.length + c3.2.2.length : Int))
        else (dictGet needs "0-7").getD 2) ∧
    (∀ (input : InputData) (c1 c2 : CarryField),
      carry_total c1 = carry_total c2 →
      prepare_demand { input with previousMonthNightCarry := c1 } =
        prepare_demand { input with previousMonthNightCarry := c2 }) := by
  refine ⟨?_, ?_, ?_⟩
  · intro input pd hok j dt hdt
    rcases prepare_demand_ok_elim hok with
      ⟨d, w, _, _, _, _, _, hnt, _, _, hperDay, _, _⟩
    refine ⟨mkPerDay pd.need_template
      (carry_total input.previousMonthNightCarry) (1 + j) dt, ?_, ?_⟩
    · rw [hperDay, buildPerDay_get?, hdt]
      rfl
    · rw [mkPerDay_slot07]
      have hnn := sanitized_slot07_nonneg hnt dt
      rcases Nat.eq_zero_or_pos j with rfl | hj
      · simp
      · have h1 : ¬(1 + j = 1) := by omega
        simp only [h1, if_neg, if_false]
        have h0 : ¬(j = 0) := by omega
        simp only [h0, if_false]
        congr 1
        omega
  · intro needs c3 d hnn
    simp only [model_effective_midnight]
    rcases Decidable.em (d = 1) with rfl | hd
    · simp
    · simp only [hd, if_false, if_neg hd]
      omega
  · intro input c1 c2 hC
    unfold prepare_demand
    simp only []
    rw [show ({ input with previousMonthNightCarry := c1 } : InputData).days
        = input.days from rfl,
      show ({ input with previousMonthNightCarry := c2 } : InputData).days
        = input.days from rfl]
    cases input.days with
    | none => rfl
    | some d =>
      simp only []
      rcases Decidable.em (d ≤ 0) with hd | hd
      · simp [hd]
      · simp only [hd, if_false]
        cases input.weekdayOfDay1 with
        | none => rfl
        | some w =>
          simp only []
          rcases Decidable.em (0 ≤ w ∧ w ≤ 6) with hw | hw
          · simp only [hw, not_true, if_false, if_neg (not_not.mpr hw)]
            cases _prepare_day_type_list input.dayTypeByDate d.toNat with
            | error e => rfl
            | ok day_types =>
              cases _sanitize_need_template input.needTemplate with
              | error e => rfl
              | ok nt =>
                simp only [bind, Except.bind]
                rw [show carry_total
                    ({ input with previousMonthNightCarry := c1 } : InputData).previousMonthNightCarry
                    = carry_total c1 from rfl,
                  show carry_total
                    ({ input with previousMonthNightCarry := c2 } : InputData).previousMonthNightCarry
                    = carry_total c2 from rfl, hC]
          · simp [hw]

/-- A concrete raw need template exercising all sanitization cases: a good
value, a non-integer, a negative value and missing keys. -/
def rawC4 : Option (List (String × RawSlots)) :=
  some [("A", .dictE [("7-9", .vint 2), ("0-7", .vint (-1)), ("9-15", .other)])]

/-- The sanitized form of `rawC4`. -/
def outC4 : List (String × List (String × Int)) :=
  [("A", [("7-9", 2), ("9-15", 0), ("16-18", 0), ("18-24", 0), ("0-7", 0)])]

/-- Witness for C4 at `rawC4`. -/
theorem C4_witness :
    _sanitize_need_template rawC4 = .ok outC4 ∧
    (∀ p ∈ outC4, ∀ slot ∈ NEED_TEMPLATE_SLOTS,
      ∃ v : Int, dictGet p.2 slot = some v ∧ 0 ≤ v ∧
        ∃ kvs entries, rawC4 = some entries ∧
          (p.1, RawSlots.dictE kvs) ∈ entries ∧
          v = _as_non_negative_int ((dictGet kvs slot).getD (.vint 0))) :=
  ⟨rfl, (C4_sanitize_need_template_nonneg rawC4 outC4 rfl).1⟩

/-- A concrete input with one day, a midnight need of 2 and a carry total
of 1 (one `NA` entry, `NB` absent, `NC` not a list). -/
def inC5 : InputData :=
  { days := some 1
    weekdayOfDay1 := some 0
    dayTypeByDate := .listF [some "A"]
    needTemplate := some [("A", .dictE [("0-7", .vint 2), ("7-9", .vint 1)])]
    previousMonthNightCarry := .dictF ⟨some (.listV [()]), none, some .notList⟩
    shifts := .absent
    people := .absent }

/-- The single per-day record of `pdC5`: the day-1 effective midnight need
is `max 0 (2 - 1) = 1`. -/
def pdC5day : PerDay :=
  { date := 1
    slots := [("7-9", 1), ("9-15", 0), ("16-18", 0), ("18-21", 0),
      ("21-23", 0), ("0-7", 1)]
    total := 2
    carryApplied := true }

/-- The prepared demand `prepare_demand` computes for `inC5`. -/
def pdC5 : PreparedDemand :=
  { days := 1
    weekday0 := 0
    day_types := ["A"]
    need_template := [("A", [("7-9", 1), ("9-15", 0), ("16-18", 0),
      ("18-24", 0), ("0-7", 2)])]
    dayTypeSample := ["A"]
    perDayTotals := [pdC5day]
    totalNeed := 2 }

/-- Witness for C5 at `inC5`, day 1. -/
theorem C5_witness :
    prepare_demand inC5 = .ok pdC5 ∧
    pdC5.day_types.get? 0 = some "A" ∧
    ∃ pday, pdC5.perDayTotals.get? 0 = some pday ∧
      dictGet pday.slots "0-7" = some (
        if 0 = 0
        then max 0 ((dictGet ((dictGet pdC5.need_template "A").getD []) "0-7").getD 0
          - (carry_total inC5.previousMonthNightCarry : Int))
        else (dictGet ((dictGet pdC5.need_template "A").getD []) "0-7").getD 0) :=
  ⟨rfl, rfl, C5_night_carry.1 inC5 pdC5 rfl 0 "A" rfl⟩

/-! ## Week segmentation (solver.py lines 573-582) -/

/-- One step of the `split_weeks` loop (solver.py lines 576-580): at a
Sunday other than day 1, close the current interval and start a new one. -/
def splitWeeksStep (weekday0 : Nat) (st : List (Nat × Nat) × Nat) (d : Nat) :
    List (Nat × Nat) × Nat :=
  if (weekday0 + (d - 1)) % 7 = 0 ∧ d ≠ 1 then (st.1 ++ [(st.2, d - 1)], d) else st

/-- `split_weeks(days, weekday0)` from solver.py lines 573-582. -/
def split_weeks (days weekday0 : Nat) : List (Nat × Nat) :=
  let p := (List.range' 1 days).foldl (splitWeeksStep weekday0) ([], 1)
  p.1 ++ [(p.2, days)]

/-- `partitionsB l lo hi` holds when `l` is a list of contiguous non-empty
intervals covering `[lo, hi]` exactly, in order. -/
def partitionsB : List (Nat × Nat) → Nat → Nat → Bool
  | [], lo, hi => decide (lo = hi + 1)
  | (a, b) :: rest, lo, hi =>
    decide (a = lo) && decide (lo ≤ b) && partitionsB rest (b + 1) hi

/-- The loop state of `split_weeks` after processing days `1..n`. -/
def wstate (days weekday0 : Nat) : List (Nat × Nat) × Nat :=
  (List.range' 1 days).foldl (splitWeeksStep weekday0) ([], 1)

theorem split_weeks_eq_wstate (days weekday0 : Nat) :
    split_weeks days weekday0 =
      (wstate days weekday0).1 ++ [((wstate days weekday0).2, days)] := rfl

theorem wstate_one (w : Nat) : wstate 1 w = ([], 1) := by
  unfold wstate splitWeeksStep
  simp

theorem wstate_succ (w n : Nat) :
    wstate (n + 1) w = splitWeeksStep w (wstate n w) (n + 1) := by
  unfold wstate
  rw [show List.range' 1 (n + 1) = List.range' 1 n ++ [n + 1] by
    simpa [Nat.add_comm] using
      (List.range'_concat 1 n :
        List.range' 1 (n + 1) = List.range' 1 n ++ [1 + 1 * n])]
  rw [List.foldl_append]
  rfl

theorem partitionsB_nil (lo hi : Nat) :
    partitionsB [] lo hi = decide (lo = hi + 1) := rfl

theorem partitionsB_cons (a b lo hi : Nat) (rest : List (Nat × Nat)) :
    partitionsB ((a, b) :: rest) lo hi =
      (decide (a = lo) && decide (lo ≤ b) && partitionsB rest (b + 1) hi) := rfl

/-- Appending one more non-empty interval to a partition of `[lo, a-1]`
yields a partition of `[lo, b]`. -/
theorem partitionsB_append (l : List (Nat × Nat)) :
    ∀ (lo a b : Nat), partitionsB l lo (a - 1) = true → 1 ≤ a → a ≤ b →
      partitionsB (l ++ [(a, b)]) lo b = true := by
  induction l with
  | nil =>
    intro lo a b hl ha hab
    rw [partitionsB_nil, decide_eq_true_eq] at hl
    rw [List.nil_append, partitionsB_cons, partitionsB_nil]
    simp only [Bool.and_eq_true, decide_eq_true_eq, and_true]
    omega
  | cons x rest ih =>
    intro lo a b hl ha hab
    match x with
    | (p, q) =>
      rw [partitionsB_cons] at hl
      simp only [Bool.and_eq_true, decide_eq_true_eq] at hl
      rw [List.cons_append, partitionsB_cons]
      simp only [Bool.and_eq_true, decide_eq_true_eq]
      exact ⟨⟨hl.1.1, hl.1.2⟩, ih (q + 1) a b hl.2 ha hab⟩

/-- The loop invariant of `split_weeks`: the closed intervals partition the
days before the current interval start, interval starts after the first are
Sundays, and every Sunday seen so far starts a closed interval or the
current one. -/
def WInv (w n : Nat) (st : List (Nat × Nat) × Nat) : Prop :=
  1 ≤ st.2 ∧ st.2 ≤ n ∧
  partitionsB st.1 1 (st.2 - 1) = true ∧
  (∀ p ∈ st.1.tail, (w + (p.1 - 1)) % 7 = 0) ∧
  (st.1 ≠ [] → (w + (st.2 - 1)) % 7 = 0) ∧
  (st.1 = [] → st.2 = 1) ∧
  (∀ d, 2 ≤ d → d ≤ n → (w + (d - 1)) % 7 = 0 →
    (∃ p ∈ st.1, p.1 = d) ∨ d = st.2)

theorem WInv_holds (w : Nat) : ∀ n, 1 ≤ n → WInv w n (wstate n w) := by
  intro n hn
  induction n, hn using Nat.le_induction with
  | base =>
    rw [wstate_one]
    refine ⟨le_refl 1, le_refl 1, by decide, ?_, ?_, fun _ => rfl, ?_⟩
    · intro p hp
      simp at hp
    · intro h
      simp at h
    · intro d hd2 hd1 _
      omega
  | succ n hn ih =>
    rw [wstate_succ]
    rcases ih with ⟨h1, h2, h3, h4, h5, h6, h7⟩
    unfold splitWeeksStep
    rcases Decidable.em ((w + (n + 1 - 1)) % 7 = 0 ∧ n + 1 ≠ 1) with hc | hc
    · rw [if_pos hc]
      refine ⟨by omega, by omega, ?_, ?_, ?_, ?_, ?_⟩
      · simp only []
        have : n + 1 - 1 = n := by omega
        rw [this]
        exact partitionsB_append _ 1 (wstate n w).2 n h3 h1 h2
      · intro p hp
        rcases hl : (wstate n w).1 with _ | ⟨x, xs⟩
        · rw [hl] at hp
          simp only [List.nil_append, List.tail_cons] at hp
          cases hp
        · rw [hl] at hp
          simp only [List.cons_append, List.tail_cons, List.mem_append,
            List.mem_singleton] at hp
          rcases hp with hp | rfl
          · exact h4 p (by rw [hl]; exact hp)
          · exact h5 (by rw [hl]; simp)
      · intro _
        exact hc.1
      · intro h
        exact absurd h (by simp)
      · intro d hd2 hd1 hsun
        rcases Nat.lt_or_ge d (n + 1) with hlt | hge
        · rcases h7 d hd2 (by omega) hsun with ⟨p, hp, hfst⟩ | rfl
          · exact Or.inl ⟨p, List.mem_append_left _ hp, hfst⟩
          · exact Or.inl ⟨((wstate n w).2, n), List.mem_append_right _ (by simp), rfl⟩
        · have : d = n + 1 := by omega
          exact Or.inr this
    · rw [if_neg hc]
      have hsun : ¬((w + (n + 1 - 1)) % 7 = 0) := by
        intro h
        exact hc ⟨h, by omega⟩
      refine ⟨h1, by omega, h3, h4, h5, h6, ?_⟩
      intro d hd2 hd1 hs
      rcases Nat.lt_or_ge d (n + 1) with hlt | hge
      · exact h7 d hd2 (by omega) hs
      · have : d = n + 1 := by omega
        subst this
        exact absurd hs hsun

/-- C6: for `D ≥ 1` and weekday `w ∈ [0,6]`, `split_weeks D w` is an
in-order partition of `[1, D]` into contiguous intervals; the first
interval starts at day 1, every later interval starts on a Sunday, every
Sunday other than day 1 starts an interval, and the last interval ends at
day `D`. -/
theorem C6_split_weeks_partition (D w : Nat) (hD : 1 ≤ D) (hw : w ≤ 6) :
    partitionsB (split_weeks D w) 1 D = true ∧
    (∀ p ∈ (split_weeks D w).tail, (w + (p.1 - 1)) % 7 = 0) ∧
    (∀ d, 2 ≤ d → d ≤ D → (w + (d - 1)) % 7 = 0 →
      ∃ p ∈ split_weeks D w, p.1 = d) ∧
    (∃ q rest, split_weeks D w = (1, q) :: rest) ∧
    (∃ p0 rest0, split_weeks D w = rest0 ++ [(p0, D)]) := by
  rcases WInv_holds w D hD with ⟨h1, h2, h3, h4, h5, h6, h7⟩
  rw [split_weeks_eq_wstate]
  refine ⟨?_, ?_, ?_, ?_, ⟨(wstate D w).2, (wstate D w).1, rfl⟩⟩
  · exact partitionsB_append _ 1 (wstate D w).2 D h3 h1 h2
  · intro p hp
    rcases hl : (wstate D w).1 with _ | ⟨x, xs⟩
    · rw [hl] at hp
      simp only [List.nil_append, List.tail_cons] at hp
      cases hp
    · rw [hl] at hp
      simp only [List.cons_append, List.tail_cons, List.mem_append,
        List.mem_singleton] at hp
      rcases hp with hp | rfl
      · exact h4 p (by rw [hl]; exact hp)
      · exact h5 (by rw [hl]; simp)
  · intro d hd2 hd1 hsun
    rcases h7 d hd2 hd1 hsun with ⟨p, hp, hfst⟩ | rfl
    · exact ⟨p, List.mem_append_left _ hp, hfst⟩
    · exact ⟨((wstate D w).2, D), List.mem_append_right _ (by simp), rfl⟩
  · rcases hl : (wstate D w).1 with _ | ⟨⟨a, b⟩, xs⟩
    · have hstart := h6 hl
      rw [hstart]
      exact ⟨D, [], rfl⟩
    · rw [hl, partitionsB_cons] at h3
      simp only [Bool.and_eq_true, decide_eq_true_eq] at h3
      have ha : a = 1 := h3.1.1
      subst ha
      exact ⟨b, xs ++ [((wstate D w).2, D)], rfl⟩

/-- Witness for C6 at `D = 10`, `w = 3` (day 1 is a Wednesday, so Sundays
fall on days 5 and 12; `split_weeks` returns `[(1,4),(5,10)]`). -/
theorem C6_witness :
    (1 ≤ 10 ∧ 3 ≤ 6) ∧
    (partitionsB (split_weeks 10 3) 1 10 = true ∧
      (∀ p ∈ (split_weeks 10 3).tail, (3 + (p.1 - 1)) % 7 = 0) ∧
      (∀ d, 2 ≤ d → d ≤ 10 → (3 + (d - 1)) % 7 = 0 →
        ∃ p ∈ split_weeks 10 3, p.1 = d) ∧
      (∃ q rest, split_weeks 10 3 = (1, q) :: rest) ∧
      (∃ p0 rest0, split_weeks 10 3 = rest0 ++ [(p0, 10)])) :=
  ⟨⟨by decide, by decide⟩, C6_split_weeks_partition 10 3 (by decide) (by decide)⟩

/-! ## Post-solve summary (solver.py lines 96-115, 585-683) -/

/-- `sanitize_day_set(values, day_limit)` from solver.py lines 96-115,
with integer-convertible raw values modelled as `Int` (booleans and
non-convertible values, which the source skips, are not represented). -/
def sanitize_day_set (values : List Int) (day_limit : Option Int) : List Int :=
  values.filter (fun day =>
    decide (1 ≤ day) &&
      (match day_limit with
       | some limit => decide (day ≤ limit)
       | none => true))

/-- One solved assignment `{date, staffId, shift}`. -/
structure Assignment where
  date : Int
  staffId : String
  shift : String
deriving Repr, DecidableEq

/-- A `summary["shortage"]` entry. -/
structure ShortEntry where
  date : Nat
  slot : String
  lack : Int
deriving Repr, DecidableEq

/-- A `summary["overstaff"]` entry. -/
structure OverEntry where
  date : Nat
  slot : String
  excess : Int
deriving Repr, DecidableEq

/-- The `summary["totals"]` block. -/
structure Totals where
  shortage : Int
  overstaff : Int
  wishOffViolations : Int
  requestedOffViolations : Int
  violatedPreferences : Int
deriving Repr, DecidableEq

/-- The summary record built by `compute_summary`. -/
structure Summary where
  shortage : List ShortEntry
  overstaff : List OverEntry
  totals : Totals
deriving Repr, DecidableEq

/-- The requested-off day set of one staff id (solver.py lines 598-613):
the sanitized `wishOffs` entry merged with the sanitized
`requestedOffDates` of every person carrying that id. -/
def requested_off (wishOffs : List (String × List Int)) (people : List Person)
    (day_limit : Option Int) (sid : String) : List Int :=
  (match dictGet wishOffs sid with
   | some days_ => sanitize_day_set days_ day_limit
   | none => []) ++
  (people.filter (fun p => p.id == some sid)).flatMap
    (fun p => sanitize_day_set p.requestedOffDates day_limit)

/-- `s_values.get((d, slot), 0)` (solver.py line 641 and later). -/
def sValuesGet (s_values : List ((Nat × String) × Int)) (d : Nat)
    (slot : String) : Int :=
  ((s_values.find? (fun p => p.1.1 == d && p.1.2 == slot)).map
    (fun p => p.2)).getD 0

/-- The conditional `add_shortage` call: one entry when `lack > 0`. -/
def shortBlock (d : Nat) (slot : String) (lack : Int) : List ShortEntry :=
  if 0 < lack then [{ date := d, slot := slot, lack := lack }] else []

/-- The conditional `add_overstaff` call: one entry when `excess > 0`. -/
def overBlock (d : Nat) (slot : String) (excess : Int) : List OverEntry :=
  if 0 < excess then [{ date := d, slot := slot, excess := excess }] else []

/-- The needs record of day `d` (`need_template[day_types[d-1]]`). -/
def needsForDay (nt : List (String × List (String × Int)))
    (day_types : List String) (d : Nat) : List (String × Int) :=
  (dictGet nt ((day_types.get? (d - 1)).getD "")).getD []

/-- The total carry as an integer. -/
def carryTotalInt (c3 : List Unit × List Unit × List Unit) : Int :=
  ((c3.1.length + c3.2.1.length + c3.2.2.length : Nat) : Int)

/-- `carry` in `compute_summary` (solver.py lines 626-630): the total count
over the sanitized lists, guarded by `days >= 1`. -/
def summaryCarry (days : Nat) (c3 : List Unit × List Unit × List Unit) : Int :=
  if 1 ≤ days then carryTotalInt c3 else 0

/-- `carry_today` for day `d` (solver.py lines 633-636). -/
def carryToday (days : Nat) (c3 : List Unit × List Unit × List Unit)
    (d : Nat) : Int :=
  if d = 1 then summaryCarry days c3 else 0

/-- The shortage entries produced for one day, in the source's slot order
(solver.py lines 640-671): template needs for the day slots, fixed need 2
for `"18-21"`, `"21-23"` and `"0-7"`, the latter with `carry_today` added
to the actual. -/
def day_shortages (needs : List (String × Int)) (carry_today : Int)
    (sget : String → Int) (d : Nat) : List ShortEntry :=
  shortBlock d "7-9" (max 0 ((dictGet needs "7-9").getD 0 - sget "7-9")) ++
  shortBlock d "9-15" (max 0 ((dictGet needs "9-15").getD 0 - sget "9-15")) ++
  shortBlock d "16-18" (max 0 ((dictGet needs "16-18").getD 0 - sget "16-18")) ++
  shortBlock d "18-21" (max 0 (2 - sget "18-21")) ++
  shortBlock d "21-23" (max 0 (2 - sget "21-23")) ++
  shortBlock d "0-7" (max 0 (2 - (sget "0-7" + carry_today)))

/-- The overstaff entries produced for one day (solver.py lines 640-673):
upper bound `need + 1` for day slots, 3 for `"18-21"`, 2 for `"21-23"` and
`"0-7"` (with carry). -/
def day_overstaffs (needs : List (String × Int)) (carry_today : Int)
    (sget : String → Int) (d : Nat) : List OverEntry :=
  overBlock d "7-9" (max 0 (sget "7-9" - ((dictGet needs "7-9").getD 0 + 1))) ++
  overBlock d "9-15" (max 0 (sget "9-15" - ((dictGet needs "9-15").getD 0 + 1))) ++
  overBlock d "16-18" (max 0 (sget "16-18" - ((dictGet needs "16-18").getD 0 + 1))) ++
  overBlock d "18-21" (max 0 (sget "18-21" - 3)) ++
  overBlock d "21-23" (max 0 (sget "21-23" - 2)) ++
  overBlock d "0-7" (max 0 ((sget "0-7" + carry_today) - 2))

/-- `compute_summary(data, assignments, s_values)` from solver.py lines
585-683, with the prepared fields of `data` passed explicitly (`solve`
stores the prepared values back into `data` before calling it). -/
def compute_summary (days : Nat) (day_types : List String)
    (nt : List (String × List (String × Int)))
    (c3 : List Unit × List Unit × List Unit)
    (wishOffs : List (String × List Int)) (people : List Person)
    (assignments : List Assignment)
    (s_values : List ((Nat × String) × Int)) : Summary :=
  let day_limit : Option Int := some (days : Int)
  let shortage := (List.range' 1 days).flatMap
    (fun d => day_shortages (needsForDay nt day_types d) (carryToday days c3 d)
      (sValuesGet s_values d) d)
  let overstaff := (List.range' 1 days).flatMap
    (fun d => day_overstaffs (needsForDay nt day_types d) (carryToday days c3 d)
      (sValuesGet s_values d) d)
  let violations : Int := ((assignments.filter (fun a =>
    decide (a.date ∈ requested_off wishOffs people day_limit a.staffId))).length : Int)
  { shortage := shortage
    overstaff := overstaff
    totals := { shortage := (shortage.map (fun e => e.lack)).sum
                overstaff := (overstaff.map (fun e => e.excess)).sum
                wishOffViolations := violations
                requestedOffViolations := violations
                violatedPreferences := violations } }

/-- The shortage reported by a summary for one `(day, slot)` pair. -/
def lackAt (su : Summary) (d : Nat) (slot : String) : Int :=
  ((su.shortage.filter (fun e => e.date == d && e.slot == slot)).map
    (fun e => e.lack)).sum

/-- The claim's reading of the reference need: the sanitized template value
of the day's type, slot `"18-24"` giving the need of both `"18-21"` and
`"21-23"`. -/
def claim_template_need (needs : List (String × Int)) (slot : String) : Int :=
  if slot = "18-21" ∨ slot = "21-23" then (dictGet needs "18-24").getD 0
  else (dictGet needs slot).getD 0

/-- The reference need `compute_summary` actually uses per slot: template
values for the day slots, the fixed value 2 for `"18-21"`, `"21-23"` and
`"0-7"`. -/
def summary_need (needs : List (String × Int)) (slot : String) : Int :=
  if slot = "7-9" ∨ slot = "9-15" ∨ slot = "16-18" then
    (dictGet needs slot).getD 0
  else 2

/-- Claim C1 as stated, at one input: for every day and summary slot,
`actual + reported_shortage ≥ template_need`, the day-1 carry added to the
actual on slot `"0-7"`. -/
def C1At (days : Nat) (day_types : List String)
    (nt : List (String × List (String × Int)))
    (c3 : List Unit × List Unit × List Unit)
    (wishOffs : List (String × List Int)) (people : List Person)
    (assignments : List Assignment)
    (s_values : List ((Nat × String) × Int)) : Prop :=
  ∀ d, 1 ≤ d → d ≤ days → ∀ slot ∈ SUMMARY_SLOTS,
    sValuesGet s_values d slot +
        (if slot = "0-7" ∧ d = 1 then carryTotalInt c3 else 0) +
      lackAt (compute_summary days day_types nt c3 wishOffs people
        assignments s_values) d slot ≥
    claim_template_need (needsForDay nt day_types d) slot

theorem mem_shortBlock {e : ShortEntry} {d : Nat} {slot : String} {v : Int}
    (he : e ∈ shortBlock d slot v) : e = { date := d, slot := slot, lack := v } := by
  unfold shortBlock at he
  split at he
  · simpa using he
  · cases he

/-- Every shortage entry produced for day `d` carries date `d`. -/
theorem day_shortages_date {needs : List (String × Int)} {c : Int}
    {sget : String → Int} {d : Nat} :
    ∀ e ∈ day_shortages needs c sget d, e.date = d := by
  intro e he
  unfold day_shortages at he
  simp only [List.mem_append] at he
  rcases he with ((((h | h) | h) | h) | h) | h <;> rw [mem_shortBlock h]

theorem shortBlock_filter_ne (d : Nat) (slot slot' : String) (v : Int)
    (h : ¬(slot' = slot)) :
    (shortBlock d slot' v).filter (fun e => e.date == d && e.slot == slot) = [] := by
  unfold shortBlock
  split
  · simp [h]
  · rfl

theorem shortBlock_filter_self (d : Nat) (slot : String) (v : Int) :
    (shortBlock d slot v).filter (fun e => e.date == d && e.slot == slot) =
      shortBlock d slot v := by
  unfold shortBlock
  split
  · simp
  · rfl

theorem shortBlock_lack_sum (d : Nat) (slot : String) (v : Int) :
    ((shortBlock d slot v).map (fun e => e.lack)).sum = if 0 < v then v else 0 := by
  unfold shortBlock
  split <;> simp_all

/-- Filtering day-`d` entries out of the blocks of other days gives
nothing. -/
theorem flatMap_filter_nil {d : Nat} {f : Nat → List ShortEntry}
    {q : ShortEntry → Bool}
    (hf : ∀ d' e, e ∈ f d' → e.date = d')
    (hq : ∀ e, q e = true → e.date = d) :
    ∀ l : List Nat, d ∉ l → (l.flatMap f).filter q = [] := by
  intro l
  induction l with
  | nil => intro _; rfl
  | cons x xs ih =>
    intro hd
    rw [List.flatMap_cons, List.filter_append]
    rw [ih (fun hx => hd (List.mem_cons_of_mem _ hx)), List.append_nil]
    rw [List.filter_eq_nil_iff]
    intro e he hq'
    have h1 := hf x e he
    have h2 := hq e hq'
    exact hd (by rw [← h2, h1]; exact List.mem_cons_self _ _)

/-- Filtering day-`d` entries out of the concatenated day blocks keeps
exactly day `d`'s block (when days are listed without repetition). -/
theorem flatMap_filter_single {d : Nat} {f : Nat → List ShortEntry}
    {q : ShortEntry → Bool}
    (hf : ∀ d' e, e ∈ f d' → e.date = d')
    (hq : ∀ e, q e = true → e.date = d) :
    ∀ l : List Nat, l.Nodup → d ∈ l →
      (l.flatMap f).filter q = (f d).filter q := by
  intro l
  induction l with
  | nil => intro _ hd; cases hd
  | cons x xs ih =>
    intro hnd hd
    rw [List.flatMap_cons, List.filter_append]
    rcases List.mem_cons.mp hd with rfl | hmem
    · rw [flatMap_filter_nil hf hq xs (List.Nodup.not_mem hnd), List.append_nil]
    · have hxd : ¬(x = d) := by
        intro h
        subst h
        exact List.Nodup.not_mem hnd hmem
      have hx : (f x).filter q = [] := by
        rw [List.filter_eq_nil_iff]
        intro e he hq'
        exact hxd (by rw [← hf x e he, hq e hq'])
      rw [hx, List.nil_append]
      exact ih (List.Nodup.of_cons hnd) hmem

/-- The reported shortage at `(d, slot)` is exactly the filtered sum over
day `d`'s block. -/
theorem lackAt_eq (days : Nat) (day_types : List String)
    (nt : List (String × List (String × Int)))
    (c3 : List Unit × List Unit × List Unit)
    (wishOffs : List (String × List Int)) (people : List Person)
    (assignments : List Assignment)
    (s_values : List ((Nat × String) × Int))
    (d : Nat) (slot : String) (hd1 : 1 ≤ d) (hdD : d ≤ days) :
    lackAt (compute_summary days day_types nt c3 wishOffs people assignments
      s_values) d slot =
    (((day_shortages (needsForDay nt day_types d) (carryToday days c3 d)
      (sValuesGet s_values d) d).filter
        (fun e => e.date == d && e.slot == slot)).map (fun e => e.lack)).sum := by
  have hq : ∀ e : ShortEntry,
      (e.date == d && e.slot == slot) = true → e.date = d := by
    intro e he
    simp only [Bool.and_eq_true, beq_iff_eq] at he
    exact he.1
  have hf : ∀ d' e, e ∈ day_shortages (needsForDay nt day_types d')
      (carryToday days c3 d') (sValuesGet s_values d') d' → e.date = d' :=
    fun d' e he => day_shortages_date e he
  unfold lackAt compute_summary
  simp only []
  rw [flatMap_filter_single hf hq (List.range' 1 days)
    (List.nodup_range' _ _) (List.mem_range'_1.mpr (by omega))]

/-- The lack value `compute_summary` computes for one slot of one day. -/
def slotLackVal (needs : List (String × Int)) (c : Int) (sget : String → Int)
    (slot : String) : Int :=
  if slot = "7-9" ∨ slot = "9-15" ∨ slot = "16-18" then
    max 0 ((dictGet needs slot).getD 0 - sget slot)
  else if slot = "18-21" then max 0 (2 - sget "18-21")
  else if slot = "21-23" then max 0 (2 - sget "21-23")
  else max 0 (2 - (sget "0-7" + c))

/-- Summing the filtered day block gives exactly the slot's lack value. -/
theorem day_shortages_filter_sum (needs : List (String × Int)) (c : Int)
    (sget : String → Int) (d : Nat) (slot : String)
    (hslot : slot ∈ SUMMARY_SLOTS) :
    (((day_shortages needs c sget d).filter
        (fun e => e.date == d && e.slot == slot)).map (fun e => e.lack)).sum =
      slotLackVal needs c sget slot := by
  have hmax : ∀ x : Int, (if 0 < max 0 x then max 0 x else 0) = max 0 x := by
    intro x
    split <;> omega
  fin_cases hslot <;>
    simp only [day_shortages, List.filter_append, shortBlock_filter_self,
      shortBlock_filter_ne, List.map_append, List.sum_append,
      shortBlock_lack_sum, List.map_nil, List.sum_nil, slotLackVal,
      String.reduceEq, or_self, or_false, false_or, if_true, if_false,
      ne_eq, not_false_eq_true, add_zero, zero_add, hmax, ite_true, ite_false]

/-- A sanitized template whose `"18-24"` need is 5: the summary still uses
the fixed need 2 for the evening slots. -/
def ntC1 : List (String × List (String × Int)) :=
  [("A", [("7-9", 0), ("9-15", 0), ("16-18", 0), ("18-24", 5), ("0-7", 0)])]

/-- C1 fails as stated: with day type `"A"` needing 5 staff over `"18-24"`
and an empty coverage, `compute_summary` reports a shortage of only 2 on
`(1, "18-21")` (the summary uses the fixed need 2, not the template), so
`actual + reported_shortage = 2 < 5 = template_need`. -/
theorem C1_counterexample :
    ¬ C1At 1 ["A"] ntC1 ([], [], []) [] [] [] [] := by
  intro h
  have h2 := h 1 (by decide) (by decide) "18-21" (by simp [SUMMARY_SLOTS])
  revert h2
  decide

/-- C1 (amended): for every day `d` and summary slot, the actual coverage
(with the day-1 carry added on `"0-7"`) plus the reported shortage is at
least the reference need `compute_summary` uses: the sanitized template
value for the day slots `"7-9"`, `"9-15"`, `"16-18"`, and the fixed need 2
for `"18-21"`, `"21-23"` and `"0-7"`. -/
theorem C1_coverage_vs_shortage (days : Nat) (day_types : List String)
    (nt : List (String × List (String × Int)))
    (c3 : List Unit × List Unit × List Unit)
    (wishOffs : List (String × List Int)) (people : List Person)
    (assignments : List Assignment)
    (s_values : List ((Nat × String) × Int))
    (d : Nat) (hd1 : 1 ≤ d) (hdD : d ≤ days)
    (slot : String) (hslot : slot ∈ SUMMARY_SLOTS) :
    sValuesGet s_values d slot +
        (if slot = "0-7" ∧ d = 1 then carryTotalInt c3 else 0) +
      lackAt (compute_summary days day_types nt c3 wishOffs people
        assignments s_values) d slot ≥
    summary_need (needsForDay nt day_types d) slot := by
  rw [lackAt_eq days day_types nt c3 wishOffs people assignments s_values
    d slot hd1 hdD]
  rw [day_shortages_filter_sum _ _ _ _ _ hslot]
  have hcarry : summaryCarry days c3 = carryTotalInt c3 :=
    if_pos (by omega)
  have hct : carryToday days c3 d = if d = 1 then carryTotalInt c3 else 0 := by
    unfold carryToday
    rw [hcarry]
  fin_cases hslot <;>
    · simp only [slotLackVal, summary_need, String.reduceEq, or_self,
        or_false, false_or, or_true, true_or, if_true, if_false, ite_true,
        ite_false, false_and, true_and, hct]
      omega

/-- Witness for the amended C1 at the counterexample's input, day 1, slot
`"18-21"`: the actual 0 plus the reported lack 2 meets the fixed need 2. -/
theorem C1_witness :
    (1 ≤ 1 ∧ 1 ≤ 1 ∧ ("18-21" : String) ∈ SUMMARY_SLOTS) ∧
    sValuesGet [] 1 "18-21" +
        (if ("18-21" : String) = "0-7" ∧ 1 = 1 then carryTotalInt ([], [], []) else 0) +
      lackAt (compute_summary 1 ["A"] ntC1 ([], [], []) [] [] [] []) 1 "18-21" ≥
    summary_need (needsForDay ntC1 ["A"] 1) "18-21" :=
  ⟨⟨by decide, by decide, by simp [SUMMARY_SLOTS]⟩,
    C1_coverage_vs_shortage 1 ["A"] ntC1 ([], [], []) [] [] [] [] 1
      (by decide) (by decide) "18-21" (by simp [SUMMARY_SLOTS])⟩

/-! ## Shift catalog and input cross-validation (solver.py lines 72-76, 140-210) -/

/-- Modelled from the spec: the shift catalog file
`solver/shifts_catalog.json` is missing from the sources (only its loader
is present). The spec names the codes `DA`, `DB`, `EA` (§4.4 rule 9) and
the night codes `NA`, `NB`, `NC` (§3, night carry), and gives `DA` the
hours `{start: 7, end: 15}` (§8 scenario 1). The other hours are
representative; the loader guarantees only a non-empty array with unique
codes and integer hours, and every general theorem below quantifies over
an arbitrary catalog, so nothing depends on these specific values. -/
def SHIFT_CATALOG : List ShiftDef :=
  [{ code := "DA", name := "DA", start := 7, end_ := 15 },
   { code := "DB", name := "DB", start := 9, end_ := 18 },
   { code := "EA", name := "EA", start := 7, end_ := 9 },
   { code := "NA", name := "NA", start := 21, end_ := 7 },
   { code := "NB", name := "NB", start := 22, end_ := 7 },
   { code := "NC", name := "NC", start := 0, end_ := 7 }]

/-- `SHIFT_CODES` (solver.py line 76) for a given catalog. -/
def catalogCodes (catalog : List ShiftDef) : List String :=
  catalog.map (fun e => e.code)

/-- The codes of the dict entries carrying a string code (solver.py lines
146-155). -/
def providedCodes (entries : List InShift) : List String :=
  entries.filterMap (fun e =>
    match e with
    | .dictS (some c) _ _ => some c
    | _ => none)

/-- The input codes absent from the catalog (solver.py lines 156-158). -/
def unknownCodes (catCodes : List String) (entries : List InShift) : List String :=
  entries.filterMap (fun e =>
    match e with
    | .dictS (some c) _ _ => if catCodes.contains c then none else some c
    | _ => none)

/-- The input codes whose start or end disagrees with the catalog entry
(solver.py lines 160-169). -/
def mismatchedCodes (catalog : List ShiftDef) (entries : List InShift) :
    List String :=
  entries.filterMap (fun e =>
    match e with
    | .dictS (some c) s en =>
      match catalog.find? (fun ce => ce.code == c) with
      | none => none
      | some ce =>
        if s = some ce.start ∧ en = some ce.end_ then none else some c
    | _ => none)

/-- The catalog codes the input does not provide (solver.py line 171). -/
def missingCodes (catCodes : List String) (entries : List InShift) :
    List String :=
  catCodes.filter (fun c => !(providedCodes entries).contains c)

/-- `ensure_shift_definitions(data)` from solver.py lines 140-179, returning
the value stored back into `data["shifts"]`: an absent, non-list or empty
`shifts` is silently replaced by the catalog; a non-empty list is
cross-validated and, on success, also replaced by catalog copies. -/
def ensure_shift_definitions (catalog : List ShiftDef) (shifts : InputShifts) :
    Except String (List ShiftDef) :=
  match shifts with
  | .absent => .ok catalog
  | .notList => .ok catalog
  | .listF [] => .ok catalog
  | .listF (x :: xs) =>
    if unknownCodes (catalogCodes catalog) (x :: xs) ≠ [] ∨
        mismatchedCodes catalog (x :: xs) ≠ [] ∨
        missingCodes (catalogCodes catalog) (x :: xs) ≠ [] then
      .error "shift_definition_mismatch"
    else .ok catalog

/-- `ensure_people_shift_codes(data)` from solver.py lines 182-210: a
person whose `canWork` list mentions a code outside the catalog makes the
whole input invalid; a missing or non-list `people` or `canWork` is
skipped. -/
def ensure_people_shift_codes (catalog : List ShiftDef)
    (people : PeopleField) : Except String Unit :=
  match people with
  | .absent => .ok ()
  | .listF ps =>
    let invalid := ps.filter (fun p =>
      match p.canWork with
      | none => false
      | some cw => cw.any (fun c => !(catalogCodes catalog).contains c))
    if invalid.isEmpty then .ok () else .error "unknown_shift_code"

/-! ## Availability analysis and the early phase of `solve`
(solver.py lines 231-298, 499-554, 694-819) -/

/-- Whether one person counts toward capacity of `(d, slot)` (solver.py
lines 267-295): they must have a usable `canWork` code, not be fixed off on
the weekday, not be unavailable on the date, and some workable shift must
contribute to the slot. -/
def personAvailable (catCodes : List String) (shift_entries : List ShiftDef)
    (wd : Int) (d days : Nat) (slot : String) (p : Person) : Bool :=
  match p.canWork with
  | none => false
  | some cw =>
    let can_codes := cw.filter (fun c => catCodes.contains c)
    !can_codes.isEmpty &&
    !(p.fixedOffWeekdays.contains wd) &&
    !((sanitize_day_set p.unavailableDates (some (days : Int))).contains (d : Int)) &&
    shift_entries.any (fun sh => can_codes.contains sh.code && slot_contributes sh slot)

/-- `compute_slot_availability(data)` from solver.py lines 231-298, at the
call site where `data` already holds the validated `days`/`weekdayOfDay1`
and the catalog shifts. -/
def compute_slot_availability (days : Nat) (weekday0 : Int)
    (staff : List Person) (shifts : List ShiftDef) (catCodes : List String) :
    List (Nat × List (String × Nat)) :=
  let shift_entries := shifts.filter (fun sh => catCodes.contains sh.code)
  (List.range' 1 days).map (fun (d : Nat) =>
    let wd := (weekday0 + ((d : Int) - 1)) % 7
    (d, SUMMARY_SLOTS.map (fun slot =>
      (slot, (staff.filter
        (personAvailable catCodes shift_entries wd d days slot)).length))))

/-- The `all_slots_zero` scan (solver.py lines 739-743). -/
def allSlotsZero (av : List (Nat × List (String × Nat))) : Bool :=
  av.all (fun p => SUMMARY_SLOTS.all (fun slot => (dictGet p.2 slot).getD 0 == 0))

/-- The all-zero totals block. -/
def emptyTotals : Totals :=
  { shortage := 0
    overstaff := 0
    wishOffViolations := 0
    requestedOffViolations := 0
    violatedPreferences := 0 }

/-- The empty summary block (solver.py lines 511-522). -/
def emptySummary : Summary :=
  { shortage := []
    overstaff := []
    totals := emptyTotals }

/-- The output map, restricted to the fields the claims inspect
(`diagnosticsAvailability` models `output["diagnostics"]["availability"]`
when present). -/
structure Output where
  assignments : List Assignment
  peopleOrder : List String
  matrix : List (Nat × List (String × String))
  summary : Summary
  error : Option String
  diagnosticsAvailability : Option (List (Nat × List (String × Nat)))
  infeasible : Bool
deriving Repr, DecidableEq

/-- The string ids salvaged from the input people (solver.py lines
500-509). -/
def peopleIds (people : PeopleField) : List String :=
  match people with
  | .absent => []
  | .listF ps => ps.filterMap (fun p => p.id)

/-- `build_validation_error_output(data, error)` from solver.py lines
499-554: empty assignments and matrix, salvaged id order, empty summary,
the error code, and, when the error details carry solver diagnostics, the
availability map. -/
def build_validation_error_output (people : PeopleField) (code : String)
    (availability : Option (List (Nat × List (String × Nat)))) : Output :=
  { assignments := []
    peopleOrder := peopleIds people
    matrix := []
    summary := emptySummary
    error := some code
    diagnosticsAvailability := availability
    infeasible := false }

/-- Outcome of the embedded early phase of `solve`: a returned output map,
an uncaught Python exception, or continuation into the CP-SAT model
building (outside the embedded scope). -/
inductive SolveStep where
  | returned : Output → SolveStep
  | raised : String → SolveStep
  | proceeds : SolveStep
deriving Repr, DecidableEq

/-- The early phase of `solve(data, time_limit)` (solver.py lines 694-819):
the validation pipeline with its `try`/`except` envelope, the
`data["people"]` access of line 711 (a `KeyError` when the key is absent),
the availability scan with the `no_availability` abort, and the
`no_assignment_variables` guard on `len(x) = days * |staff| * |shifts|`. -/
def solve_early (catalog : List ShiftDef) (input : InputData) : SolveStep :=
  match ensure_shift_definitions catalog input.shifts with
  | .error e => .returned (build_validation_error_output input.people e none)
  | .ok newShifts =>
    match ensure_people_shift_codes catalog input.people with
    | .error e => .returned (build_validation_error_output input.people e none)
    | .ok _ =>
      match prepare_demand input with
      | .error e => .returned (build_validation_error_output input.people e none)
      | .ok prepared =>
        match input.people with
        | .absent => .raised "KeyError"
        | .listF staff =>
          let availability := compute_slot_availability prepared.days
            prepared.weekday0 staff newShifts (catalogCodes catalog)
          if allSlotsZero availability ∧ 0 < prepared.totalNeed then
            .returned (build_validation_error_output input.people
              "no_availability" (some availability))
          else if prepared.days * staff.length * newShifts.length = 0 then
            .returned (build_validation_error_output input.people
              "no_assignment_variables" (some availability))
          else .proceeds

/-- Whenever `ensure_shift_definitions` succeeds it stores the catalog. -/
theorem ensure_shift_ok_eq {catalog : List ShiftDef} {shifts : InputShifts}
    {s : List ShiftDef} (h : ensure_shift_definitions catalog shifts = .ok s) :
    s = catalog := by
  cases shifts with
  | absent =>
    simp only [ensure_shift_definitions, Except.ok.injEq] at h
    exact h.symm
  | notList =>
    simp only [ensure_shift_definitions, Except.ok.injEq] at h
    exact h.symm
  | listF l =>
    cases l with
    | nil =>
      simp only [ensure_shift_definitions, Except.ok.injEq] at h
      exact h.symm
    | cons x xs =>
      simp only [ensure_shift_definitions] at h
      split at h
      · cases h
      · simp only [Except.ok.injEq] at h
        exact h.symm

/-- A `days` value that is absent, non-integer, or not positive makes
`prepare_demand` fail with `invalid_days` before anything else is read. -/
theorem prepare_demand_invalid_days {input : InputData}
    (h : input.days = none ∨ ∃ n, input.days = some n ∧ n ≤ 0) :
    prepare_demand input = .error "invalid_days" := by
  unfold prepare_demand
  rcases h with h | ⟨n, h, hn⟩
  · rw [h]
  · rw [h]
    simp [hn]

/-- C10: an absent, non-list or empty `shifts` field is silently replaced
by the full catalog with no validation error, and any
`shift_definition_mismatch` error can only arise from a non-empty input
shifts list. -/
theorem C10_implicit_catalog_substitution :
    (∀ (catalog : List ShiftDef) (shifts : InputShifts),
      shifts = .absent ∨ shifts = .notList ∨ shifts = .listF [] →
      ensure_shift_definitions catalog shifts = .ok catalog) ∧
    (∀ (catalog : List ShiftDef) (shifts : InputShifts) (e : String),
      ensure_shift_definitions catalog shifts = .error e →
      e = "shift_definition_mismatch" ∧ ∃ l, shifts = .listF l ∧ l ≠ []) := by
  constructor
  · rintro catalog shifts (rfl | rfl | rfl) <;> rfl
  · intro catalog shifts e h
    cases shifts with
    | absent =>
      simp only [ensure_shift_definitions] at h
      exact Except.noConfusion h
    | notList =>
      simp only [ensure_shift_definitions] at h
      exact Except.noConfusion h
    | listF l =>
      cases l with
      | nil =>
        simp only [ensure_shift_definitions] at h
        exact Except.noConfusion h
      | cons x xs =>
        simp only [ensure_shift_definitions] at h
        split at h
        · simp only [Except.error.injEq] at h
          exact ⟨h.symm, x :: xs, rfl, by simp⟩
        · cases h

/-- Witness for C10: an absent shifts field yields the catalog, and a
one-element list of a non-dict entry yields the mismatch error. -/
theorem C10_witness :
    ensure_shift_definitions SHIFT_CATALOG .absent = .ok SHIFT_CATALOG ∧
    ("shift_definition_mismatch" = "shift_definition_mismatch" ∧
      ∃ l, InputShifts.listF [InShift.notDict] = .listF l ∧ l ≠ []) :=
  ⟨C10_implicit_catalog_substitution.1 SHIFT_CATALOG .absent (Or.inl rfl),
   C10_implicit_catalog_substitution.2 SHIFT_CATALOG (.listF [.notDict])
     "shift_definition_mismatch" rfl⟩

/-- C7 (amended): shift definitions and people shift codes are validated
before `days`; when both pass and `days` is not a positive integer,
`solve` returns the `invalid_days` error output. -/
theorem C7_invalid_days_after_shift_checks (catalog : List ShiftDef)
    (input : InputData)
    (hdays : input.days = none ∨ ∃ n, input.days = some n ∧ n ≤ 0)
    (hsh : ∃ s, ensure_shift_definitions catalog input.shifts = .ok s)
    (hpe : ensure_people_shift_codes catalog input.people = .ok ()) :
    solve_early catalog input =
      .returned (build_validation_error_output input.people "invalid_days" none) ∧
    (build_validation_error_output input.people "invalid_days" none).error =
      some "invalid_days" := by
  rcases hsh with ⟨s, hs⟩
  refine ⟨?_, rfl⟩
  unfold solve_early
  rw [hs, hpe, prepare_demand_invalid_days hdays]

/-- An input whose `days` is invalid and whose `shifts` is a non-empty list
that disagrees with the catalog. -/
def in7 : InputData :=
  { days := some 0
    weekdayOfDay1 := some 0
    dayTypeByDate := .listF []
    needTemplate := none
    previousMonthNightCarry := .other
    shifts := .listF [.notDict]
    people := .absent }

/-- C7 fails as stated: on `in7` (`days = 0` and a disagreeing non-empty
shifts list) `solve` reports `shift_definition_mismatch`, not
`invalid_days` — the shift cross-validation runs first. -/
theorem C7_counterexample :
    in7.days = some 0 ∧
    solve_early SHIFT_CATALOG in7 =
      .returned (build_validation_error_output in7.people
        "shift_definition_mismatch" none) ∧
    (build_validation_error_output in7.people "shift_definition_mismatch"
      none).error ≠ some "invalid_days" :=
  ⟨rfl, rfl, by decide⟩

/-- An input with invalid `days` whose shifts and people pass validation. -/
def in7b : InputData :=
  { days := none
    weekdayOfDay1 := some 0
    dayTypeByDate := .listF []
    needTemplate := none
    previousMonthNightCarry := .other
    shifts := .absent
    people := .listF [] }

/-- Witness for the amended C7 at `in7b`. -/
theorem C7_witness :
    (in7b.days = none ∨ ∃ n, in7b.days = some n ∧ n ≤ 0) ∧
    (solve_early SHIFT_CATALOG in7b =
      .returned (build_validation_error_output in7b.people "invalid_days" none) ∧
    (build_validation_error_output in7b.people "invalid_days" none).error =
      some "invalid_days") :=
  ⟨Or.inl rfl, C7_invalid_days_after_shift_checks SHIFT_CATALOG in7b
    (Or.inl rfl) ⟨SHIFT_CATALOG, rfl⟩ rfl⟩

/-- C9 (amended, positive part): an `InputValidationError` from any of the
three validation steps is caught and turned into a full error output with
empty assignments — validation exceptions never escape `solve`. -/
theorem C9_validation_errors_return (catalog : List ShiftDef)
    (input : InputData) (e : String)
    (h : ensure_shift_definitions catalog input.shifts = .error e ∨
      ((∃ s, ensure_shift_definitions catalog input.shifts = .ok s) ∧
        ensure_people_shift_codes catalog input.people = .error e) ∨
      ((∃ s, ensure_shift_definitions catalog input.shifts = .ok s) ∧
        ensure_people_shift_codes catalog input.people = .ok () ∧
        prepare_demand input = .error e)) :
    solve_early catalog input =
      .returned (build_validation_error_output input.people e none) ∧
    (build_validation_error_output input.people e none).assignments = [] ∧
    (build_validation_error_output input.people e none).error = some e := by
  refine ⟨?_, rfl, rfl⟩
  unfold solve_early
  rcases h with h | ⟨⟨s, hs⟩, hpe⟩ | ⟨⟨s, hs⟩, hpe, hprep⟩
  · rw [h]
  · rw [hs, hpe]
  · rw [hs, hpe, hprep]

/-- A validated input (positive demand, passing shifts and people checks)
with no `"people"` key at all. -/
def in9 : InputData :=
  { days := some 1
    weekdayOfDay1 := some 0
    dayTypeByDate := .listF [some "A"]
    needTemplate := some [("A", .dictE [("7-9", .vint 1)])]
    previousMonthNightCarry := .other
    shifts := .absent
    people := .absent }

/-- C9 fails as stated: `in9` passes all validation, then
`staff = data["people"]` (solver.py line 711) raises `KeyError` — the
exception escapes `solve` instead of an output map being returned. -/
theorem C9_counterexample :
    solve_early SHIFT_CATALOG in9 = .raised "KeyError" := rfl

/-- `in9` with an invalid `days`, used to witness the caught-error path. -/
def in9b : InputData :=
  { days := some 0
    weekdayOfDay1 := some 0
    dayTypeByDate := .listF [some "A"]
    needTemplate := some [("A", .dictE [("7-9", .vint 1)])]
    previousMonthNightCarry := .other
    shifts := .absent
    people := .absent }

/-- Witness for the amended C9 at `in9b`. -/
theorem C9_witness :
    prepare_demand in9b = .error "invalid_days" ∧
    (solve_early SHIFT_CATALOG in9b =
      .returned (build_validation_error_output in9b.people "invalid_days" none) ∧
    (build_validation_error_output in9b.people "invalid_days" none).assignments = [] ∧
    (build_validation_error_output in9b.people "invalid_days" none).error =
      some "invalid_days") :=
  ⟨rfl, C9_validation_errors_return SHIFT_CATALOG in9b "invalid_days"
    (Or.inr (Or.inr ⟨⟨SHIFT_CATALOG, rfl⟩, rfl, rfl⟩))⟩

/-- C8: a validated input with positive total need whose computed capacity
is zero on every (day, slot) makes `solve` return the `no_availability`
error output, with empty assignments and the availability map in its
diagnostics. -/
theorem C8_no_availability_abort (catalog : List ShiftDef) (input : InputData)
    (staff : List Person) (prepared : PreparedDemand)
    (hsh : ∃ s, ensure_shift_definitions catalog input.shifts = .ok s)
    (hpe : ensure_people_shift_codes catalog input.people = .ok ())
    (hprep : prepare_demand input = .ok prepared)
    (hpeople : input.people = .listF staff)
    (htn : 0 < prepared.totalNeed)
    (hzero : allSlotsZero (compute_slot_availability prepared.days
      prepared.weekday0 staff catalog (catalogCodes catalog)) = true) :
    (let av := compute_slot_availability prepared.days prepared.weekday0
      staff catalog (catalogCodes catalog)
     let out := build_validation_error_output input.people "no_availability"
      (some av)
     solve_early catalog input = .returned out ∧
       out.assignments = [] ∧ out.error = some "no_availability" ∧
       out.diagnosticsAvailability = some av) := by
  rcases hsh with ⟨s, hs⟩
  have hsc := ensure_shift_ok_eq hs
  subst hsc
  refine ⟨?_, rfl, rfl, rfl⟩
  unfold solve_early
  rw [hs, hpe, hprep, hpeople]
  simp only []
  rw [if_pos ⟨hzero, htn⟩]

/-- A validated input (one day of positive need) with an empty people
list: capacity is zero everywhere. -/
def in8 : InputData :=
  { days := some 1
    weekdayOfDay1 := some 0
    dayTypeByDate := .listF [some "A"]
    needTemplate := some [("A", .dictE [("7-9", .vint 1)])]
    previousMonthNightCarry := .other
    shifts := .absent
    people := .listF [] }

/-- The prepared demand for `in8`. -/
def pd8 : PreparedDemand :=
  { days := 1
    weekday0 := 0
    day_types := ["A"]
    need_template := [("A", [("7-9", 1), ("9-15", 0), ("16-18", 0),
      ("18-24", 0), ("0-7", 0)])]
    dayTypeSample := ["A"]
    perDayTotals := [{ date := 1
                       slots := [("7-9", 1), ("9-15", 0), ("16-18", 0),
                         ("18-21", 0), ("21-23", 0), ("0-7", 0)]
                       total := 1
                       carryApplied := false }]
    totalNeed := 1 }

/-- Witness for C8 at `in8`. -/
theorem C8_witness :
    (prepare_demand in8 = .ok pd8 ∧ 0 < pd8.totalNeed ∧
      allSlotsZero (compute_slot_availability pd8.days pd8.weekday0 []
        SHIFT_CATALOG (catalogCodes SHIFT_CATALOG)) = true) ∧
    (let av := compute_slot_availability pd8.days pd8.weekday0 []
      SHIFT_CATALOG (catalogCodes SHIFT_CATALOG)
     let out := build_validation_error_output in8.people "no_availability"
      (some av)
     solve_early SHIFT_CATALOG in8 = .returned out ∧
       out.assignments = [] ∧ out.error = some "no_availability" ∧
       out.diagnosticsAvailability = some av) :=
  ⟨⟨rfl, by decide, by decide⟩,
    C8_no_availability_abort SHIFT_CATALOG in8 [] pd8 ⟨SHIFT_CATALOG, rfl⟩
      rfl rfl rfl (by decide) (by decide)⟩

end ShiftSolver
